import Mathlib

/-!
Shallow embedding of the Background Asset & Transition Manager of the
ambient-clock application (src/components/CalendarWidget.tsx, which also
contains the App orchestration module).  Every definition below is
translated from the TypeScript source; numbers that are floating-point
constants in the source (scales, brightness, JPEG quality) are modelled
as exact rationals, browser strings as String, and blobs as opaque
numeric identifiers.
-/

/-- Kind of a background asset: the source literals "image" and "video". -/
inductive Kind where
  | image
  | video
deriving DecidableEq, Repr

/-- A background source.  In the source every source is a string URL; we
distinguish the object URLs minted by URL.createObjectURL for an
in-memory blob (constructor objRef, carrying the blob identifier) from
ordinary string URLs and data URLs (constructor url).  Two object
references to the same blob denote the same displayable bytes. -/
inductive Source where
  | url (s : String)
  | objRef (b : Nat)
deriving DecidableEq, Repr

/-- JavaScript truthiness of a source string: only the empty string is
falsy; object URLs are never empty. -/
def truthySource : Source → Bool
  | .url s => !(s = "")
  | .objRef _ => true

/-- Embedding of isVideoUrl (CalendarWidget.tsx lines 425-428): empty is
not a video; data:video prefix, blob: prefix (our objRef constructor), or
a case-insensitive .mp4 / .webm / .ogg extension means video. -/
def isVideoUrl : Source → Bool
  | .objRef _ => true
  | .url s =>
      if s = "" then false
      else s.startsWith "data:video"
        || (s.toLower.endsWith ".mp4" || s.toLower.endsWith ".webm" || s.toLower.endsWith ".ogg")

/-- A value stored in the Durable Asset Store: either a string (data URL
or remote URL) or a binary blob, identified by a numeric id. -/
inductive StoreVal where
  | str (s : String)
  | blob (b : Nat)
deriving DecidableEq, Repr

/-- The Durable Asset Store (the IndexedDB object store named assets), a
key-value map. -/
def AssetStore := String → Option StoreVal

/-- Key current_bg_file of the Durable Asset Store. -/
def KEY_BG : String := "current_bg_file"

/-- Key current_bg_type of the Durable Asset Store. -/
def KEY_BG_TYPE : String := "current_bg_type"

/-- Embedding of saveAssetToDB (lines 394-404) at the store level: put a
value under one key. -/
def putAsset (st : AssetStore) (k : String) (v : StoreVal) : AssetStore :=
  fun k2 => if k2 = k then some v else st k2

/-- The string tag the source writes for a kind. -/
def kindStr : Kind → String
  | .image => "image"
  | .video => "video"

/-- How each ingestion path persists a background while day/night mode is
off: saveAssetToDB(KEY_BG, v) followed by saveAssetToDB(KEY_BG_TYPE, tag)
(lines 790-791, 818-819, 868-869, 886-887). -/
def persistAsset (st : AssetStore) (v : StoreVal) (k : Kind) : AssetStore :=
  putAsset (putAsset st KEY_BG v) KEY_BG_TYPE (.str (kindStr k))

/-- Decoding of the stored kind tag on restore.  The source casts the
stored value and then applies the fallback savedType or image (line 583);
the application only ever writes the strings image and video under
KEY_BG_TYPE. -/
def kindOfStored : Option StoreVal → Kind
  | some (.str s) => if s = "video" then .video else .image
  | some (.blob _) => .image
  | none => .image

/-- An empty Durable Asset Store (first run, nothing persisted). -/
def emptyStore : AssetStore := fun _ => none

/-- The React state of the transition engine (lines 504-512): the bottom
layer bgImage/bgType, the top layer nextBgImage/nextBgType, and the
cross-fade flag isBgTransitioning. -/
structure BgState where
  bgImage : Source
  bgType : Kind
  nextBgImage : Option Source
  nextBgType : Kind
  isBgTransitioning : Bool
deriving DecidableEq, Repr

/-- A write to one of the two persistence tiers, recorded so theorems can
speak about which store operations an engine run performs. -/
inductive StoreWrite where
  | asset (key : String) (v : StoreVal)
  | pref (key : String)
deriving DecidableEq, Repr

/-- The observable outcome of one complete run of triggerBgTransition:
the final React state, the store writes it performed, the object URL
revocations it performed, and the console messages it logged. -/
structure TransitionOutcome where
  state : BgState
  storeWrites : List StoreWrite
  releases : List Source
  logs : List String
deriving DecidableEq, Repr

/-- The warning logged when an image preload fails (line 681). -/
def imgPreloadWarn : String := "Image preload failed, attempting to show anyway."

/-- Embedding of triggerBgTransition (lines 670-735), run to completion.
Guard: if the new source equals bgImage the function returns at once
(line 672).  Otherwise: the asset is preloaded (for an image, onerror
logs a warning and resolves; for a video, onerror resolves silently,
lines 675-702); then nextBgImage/nextBgType are set, the fade flag is
raised, and after the 1500 ms timeout bgImage/bgType are swapped to the
new asset, the flag is lowered, and after a further 100 ms buffer
nextBgImage is cleared (lines 704-734).  The revocation of the old blob
URL inside the timeout is commented out in the source (line 723), so the
releases list of a run is always empty.  The function performs no store
writes.  The preloadOk argument is the outcome of the decode/load
attempt, an input from the environment. -/
def runTransition (st : BgState) (src : Source) (k : Kind) (preloadOk : Bool) :
    TransitionOutcome :=
  if src = st.bgImage then
    ⟨st, [], [], []⟩
  else
    { state :=
        { bgImage := src
          bgType := k
          nextBgImage := none
          nextBgType := k
          isBgTransitioning := false }
      storeWrites := []
      releases := []
      logs :=
        if preloadOk then []
        else
          match k with
          | .image => [imgPreloadWarn]
          | .video => [] }

/-- The default background URL used before restoration (line 506). -/
def defaultBgUrl : String := "https://picsum.photos/1920/1080?blur=2"

/-- The state of a fresh instance before restoration (lines 504-512). -/
def initialBgState : BgState :=
  { bgImage := .url defaultBgUrl
    bgType := .image
    nextBgImage := none
    nextBgType := .image
    isBgTransitioning := false }

/-- Embedding of restoreBackground (lines 560-593) on a fresh instance.
If day/night mode is enabled the restore returns immediately.  Otherwise
the two keys are read; a Blob is turned into an object URL, a string is
used directly; a falsy (absent or empty) asset leaves the state alone;
otherwise triggerBgTransition is invoked with the stored kind (falling
back to image).  By c9 the resulting state does not depend on the
preload outcome, so it is fixed to success here. -/
def restoreBackground (store : AssetStore) (dayNight : Bool) (st : BgState) : BgState :=
  if dayNight then st
  else
    match store KEY_BG with
    | none => st
    | some v =>
        let u : Option Source :=
          match v with
          | .blob b => some (.objRef b)
          | .str s => if s = "" then none else some (.url s)
        match u with
        | none => st
        | some src => (runTransition st src (kindOfStored (store KEY_BG_TYPE)) true).state

/-- Phase of the transition engine, per the state machine of the design:
Idle, then Preloading (awaiting decode/load), Fading (next layer mounted
and the cross-fade running), Finalizing (the 1500 ms fade elapsed, the
layers swapped, awaiting the 100 ms buffer that clears the next layer). -/
inductive Phase where
  | idle
  | preloading
  | fading
  | finalizing
deriving DecidableEq, Repr

/-- Events driving the transition engine: a transition request, and the
three asynchronous completions inside triggerBgTransition: the preload
settling (the engine proceeds whether it succeeded or failed), the
1500 ms fade timeout, and the 100 ms clear timeout. -/
inductive Ev where
  | request (s : Source) (k : Kind)
  | preloadDone
  | fadeTimer
  | clearTimer
deriving DecidableEq, Repr

/-- Small-step view of the engine state: the React fields of BgState
plus the phase of the (at most one) in-flight run of triggerBgTransition
and its requested asset.  Requests are serialized, one transition in
flight at a time: a request arriving while the phase is not idle is
rejected. -/
structure Machine where
  bg : Source
  bgK : Kind
  next : Option Source
  nextK : Kind
  transitioning : Bool
  phase : Phase
  pending : Option (Source × Kind)
deriving DecidableEq, Repr

/-- One step of the engine.  request: the guard of line 672 drops a
request for the currently shown source; an accepted request enters
Preloading with nextBgImage still null (it is only assigned at line 705,
after the preload await).  preloadDone: lines 704-713, the next layer is
populated and the fade flag raised.  fadeTimer: lines 718-728, the
bottom layer takes the new asset and the flag is lowered.  clearTimer:
line 731, the next layer is cleared. -/
def step (m : Machine) (e : Ev) : Machine :=
  match e with
  | .request s k =>
      if s = m.bg then m
      else
        match m.phase with
        | .idle => { m with phase := .preloading, pending := some (s, k) }
        | _ => m
  | .preloadDone =>
      match m.phase, m.pending with
      | .preloading, some (s, k) =>
          { m with next := some s, nextK := k, transitioning := true, phase := .fading }
      | _, _ => m
  | .fadeTimer =>
      match m.phase, m.pending with
      | .fading, some (s, k) =>
          { m with bg := s, bgK := k, transitioning := false, phase := .finalizing }
      | _, _ => m
  | .clearTimer =>
      match m.phase with
      | .finalizing => { m with next := none, pending := none, phase := .idle }
      | _ => m

/-- Initial machine state of a fresh instance. -/
def initMachine : Machine :=
  { bg := .url defaultBgUrl
    bgK := .image
    next := none
    nextK := .image
    transitioning := false
    phase := .idle
    pending := none }

/-- Run the engine over a sequence of events from the initial state. -/
def runMachine (evs : List Ev) : Machine :=
  evs.foldl step initMachine

/-- The clock style enum of the application (the nine styles the style
toggler cycles through, lines 914-924). -/
inductive ClockStyle where
  | IOS_MODERN
  | IOS_CLEAN
  | ANALOG
  | NEON
  | ELEGANT
  | WORD
  | CHINESE_VERTICAL
  | CHINESE_INK
  | CHINESE_CLASSIC
deriving DecidableEq, Repr

/-- The calendar style enum (the seven styles of lines 931-939). -/
inductive CalendarStyleE where
  | GRID
  | LIST
  | BIG_CARD
  | STRIP
  | DOTS
  | RED_FESTIVE
  | INK_SCROLL
deriving DecidableEq, Repr

/-- The settings record, with float fields as exact rationals and the
day/night slots as sources. -/
structure AppSettings where
  showSeconds : Bool
  is24Hour : Bool
  clockStyle : ClockStyle
  calendarStyle : CalendarStyleE
  showCalendar : Bool
  brightness : ℚ
  bingApiUrl : String
  clockScale : ℚ
  calendarScale : ℚ
  enableDayNightMode : Bool
  dayBgUrl : Source
  nightBgUrl : Source
deriving DecidableEq, Repr

/-- The default night background URL (line 531 / 550). -/
def defaultNightBgUrl : String :=
  "https://images.unsplash.com/photo-1472552944129-b035e9ea3744?q=80&w=1920&auto=format&fit=crop"

/-- The default settings object (lines 538-551). -/
def defaultSettings : AppSettings :=
  { showSeconds := true
    is24Hour := false
    clockStyle := .IOS_MODERN
    calendarStyle := .GRID
    showCalendar := true
    brightness := 1/5
    bingApiUrl := "https://bing.img.run/rand.php"
    clockScale := 1
    calendarScale := 1/2
    enableDayNightMode := false
    dayBgUrl := .url defaultBgUrl
    nightBgUrl := .url defaultNightBgUrl }

/-- A parsed record found under the clockSettings key of localStorage.
Fields the application has saved since its first release are present;
the five fields introduced later (clockScale, calendarScale,
enableDayNightMode, dayBgUrl, nightBgUrl) may be absent and are modelled
as options, matching the migration branch of lines 527-531.  The stored
clockStyle may fail the enum membership check of line 523; a stored
value that is absent or not a member of the enum is modelled as none. -/
structure StoredSettings where
  showSeconds : Bool
  is24Hour : Bool
  clockStyle : Option ClockStyle
  calendarStyle : CalendarStyleE
  showCalendar : Bool
  brightness : ℚ
  bingApiUrl : String
  clockScale : Option ℚ
  calendarScale : Option ℚ
  enableDayNightMode : Option Bool
  dayBgUrl : Option Source
  nightBgUrl : Option Source
deriving DecidableEq, Repr

/-- Embedding of the settings useState initializer (lines 517-552): an
unparseable or absent record yields the complete default settings; a
parsed record has its clockStyle replaced by IOS_MODERN when invalid and
each missing newer field filled with its default. -/
def loadSettings : Option StoredSettings → AppSettings
  | none => defaultSettings
  | some p =>
      { showSeconds := p.showSeconds
        is24Hour := p.is24Hour
        clockStyle := p.clockStyle.getD .IOS_MODERN
        calendarStyle := p.calendarStyle
        showCalendar := p.showCalendar
        brightness := p.brightness
        bingApiUrl := p.bingApiUrl
        clockScale := p.clockScale.getD 1
        calendarScale := p.calendarScale.getD (1/2)
        enableDayNightMode := p.enableDayNightMode.getD false
        dayBgUrl := p.dayBgUrl.getD (.url defaultBgUrl)
        nightBgUrl := p.nightBgUrl.getD (.url defaultNightBgUrl) }

/-- Embedding of isDayTime (line 768): hours in [6, 18). -/
def isDayTime (h : Nat) : Bool :=
  decide (6 ≤ h) && decide (h < 18)

/-- The desired background source as a pure function of the hour and the
two configured URLs (line 772). -/
def desiredSource (h : Nat) (day night : Source) : Source :=
  if isDayTime h then day else night

/-- The desired source for a settings object. -/
def dayNightDesired (s : AppSettings) (h : Nat) : Source :=
  desiredSource h s.dayBgUrl s.nightBgUrl

/-- Embedding of the day/night scheduler effect (lines 770-779): when
day/night mode is on, it computes the target URL and requests a
transition only when the target is truthy, differs from bgImage, and
differs from nextBgImage (a null nextBgImage never equals a truthy
string target); the kind is derived from the target by isVideoUrl.
Returns the request issued, if any. -/
def dayNightTick (s : AppSettings) (h : Nat) (bg : Source) (next : Option Source) :
    Option (Source × Kind) :=
  if s.enableDayNightMode then
    let target := dayNightDesired s h
    if truthySource target && !(bg = target) && !(next = some target) then
      some (target, if isVideoUrl target then .video else .image)
    else none
  else none

/-- Rounding of a non-negative rational num/den as Math.round does:
half-up, that is the floor of num/den + 1/2. -/
def jsRound (num den : Nat) : Nat :=
  (2 * num + den) / (2 * den)

/-- The dimension computation of compressImage (lines 446-459): if either
dimension exceeds 1920, the larger side is set to 1920 and the other is
scaled by the same ratio and rounded; otherwise dimensions are kept. -/
def scaleDims (w h : Nat) : Nat × Nat :=
  if w > 1920 || h > 1920 then
    if w > h then (1920, jsRound (h * 1920) w)
    else (jsRound (w * 1920) h, 1920)
  else (w, h)

/-- A decoded pixel surface. -/
structure DecodedImage where
  width : Nat
  height : Nat
deriving DecidableEq, Repr

/-- The output of the compressor: the canvas dimensions and the encoding
parameters passed to toDataURL (line 467). -/
structure CompressedImage where
  width : Nat
  height : Nat
  format : String
  quality : ℚ
deriving DecidableEq, Repr

/-- The two failure modes of compressImage: the img.onerror rejection
(line 482) and the rejection when the 2d canvas context is unavailable
(line 470). -/
inductive CompressError where
  | decodeError
  | canvasContextError
deriving DecidableEq, Repr

/-- Embedding of compressImage (lines 432-488).  The browser decode and
the context acquisition are environment inputs: decode is the result of
loading the input into an Image element, ctxOk tells whether
canvas.getContext succeeded.  On decode failure the promise rejects; on
success the dimensions are clamped by scaleDims and, if a context is
available, the canvas is encoded as image/jpeg at quality 0.7; with no
context the promise rejects with the canvas context error. -/
def compressImage (decode : Except Unit DecodedImage) (ctxOk : Bool) :
    Except CompressError CompressedImage :=
  match decode with
  | .error _ => .error .decodeError
  | .ok img =>
      if ctxOk then
        let d := scaleDims img.width img.height
        .ok { width := d.1, height := d.2, format := "image/jpeg", quality := 7/10 }
      else .error .canvasContextError

/-- The world the ingestion handlers act on: the settings object, the
Durable Asset Store, and the engine state. -/
structure World where
  settings : AppSettings
  store : AssetStore
  bg : BgState

/-- Embedding of handleImageFileChange (lines 782-809).  The compression
result is an environment input: ok e is the compressed data URL, error
is a compression failure.  On success with day/night mode off the
compressed string is persisted under both keys and a transition is
triggered; with day/night mode on the result is written into the day or
night slot according to the current hour.  On compression failure the
raw data URL of the file (read by FileReader) is shown via a transition
and nothing is persisted. -/
def handleImageFileChange (w : World) (comp : Except Unit String) (rawDataUrl : String)
    (hour : Nat) (preloadOk : Bool) : World :=
  match comp with
  | .ok e =>
      if !w.settings.enableDayNightMode then
        { w with
            store := persistAsset w.store (.str e) .image
            bg := (runTransition w.bg (.url e) .image preloadOk).state }
      else
        if isDayTime hour then
          { w with settings := { w.settings with dayBgUrl := .url e } }
        else
          { w with settings := { w.settings with nightBgUrl := .url e } }
  | .error _ =>
      { w with bg := (runTransition w.bg (.url rawDataUrl) .image preloadOk).state }

/-- Embedding of handleVideoFileChange (lines 811-829).  The selected
file is a blob; an object URL is created for it.  With day/night mode
off the blob itself is persisted under both keys and a transition to the
object URL is triggered; with day/night mode on the object URL is
written into the day or night slot according to the current hour. -/
def handleVideoFileChange (w : World) (fileBlob : Nat) (hour : Nat) (preloadOk : Bool) :
    World :=
  let videoUrl : Source := .objRef fileBlob
  if !w.settings.enableDayNightMode then
    { w with
        store := persistAsset w.store (.blob fileBlob) .video
        bg := (runTransition w.bg videoUrl .video preloadOk).state }
  else
    if isDayTime hour then
      { w with settings := { w.settings with dayBgUrl := videoUrl } }
    else
      { w with settings := { w.settings with nightBgUrl := videoUrl } }

/-- Embedding of handleFetchBg (lines 848-897).  An empty bingApiUrl
returns at once.  Otherwise a cache-busting query parameter built from
the entropy string is appended.  The fetch-and-compress outcome is an
environment input: ok e is the compressed data URL of the fetched bytes;
error covers a failed fetch or a failed compression, in which case the
fallback substitutes the cache-busted request URL itself as the source.
In both outcomes: with day/night mode off the resulting string is
persisted under both keys and a transition is triggered; with day/night
mode on it is written into the day or night slot for the current hour. -/
def handleFetchBg (w : World) (entropy : String) (result : Except Unit String)
    (hour : Nat) (preloadOk : Bool) : World :=
  let u := w.settings.bingApiUrl
  if u = "" then w
  else
    let separator := if u.contains '?' then "&" else "?"
    let fetchUrl := u ++ separator ++ "t=" ++ entropy
    match result with
    | .ok e =>
        if !w.settings.enableDayNightMode then
          { w with
              store := persistAsset w.store (.str e) .image
              bg := (runTransition w.bg (.url e) .image preloadOk).state }
        else
          if isDayTime hour then
            { w with settings := { w.settings with dayBgUrl := .url e } }
          else
            { w with settings := { w.settings with nightBgUrl := .url e } }
    | .error _ =>
        if !w.settings.enableDayNightMode then
          { w with
              store := persistAsset w.store (.str fetchUrl) .image
              bg := (runTransition w.bg (.url fetchUrl) .image preloadOk).state }
        else
          if isDayTime hour then
            { w with settings := { w.settings with dayBgUrl := .url fetchUrl } }
          else
            { w with settings := { w.settings with nightBgUrl := .url fetchUrl } }

/-- Agreement of two settings records on every field other than the two
day/night slots. -/
def settingsAgreeOutsideDayNight (a b : AppSettings) : Prop :=
  a.showSeconds = b.showSeconds ∧ a.is24Hour = b.is24Hour ∧
  a.clockStyle = b.clockStyle ∧ a.calendarStyle = b.calendarStyle ∧
  a.showCalendar = b.showCalendar ∧ a.brightness = b.brightness ∧
  a.bingApiUrl = b.bingApiUrl ∧ a.clockScale = b.clockScale ∧
  a.calendarScale = b.calendarScale ∧ a.enableDayNightMode = b.enableDayNightMode

/-- Writing a source into the slot selected by the hour: the day slot
during day hours, the night slot otherwise. -/
def slotSet (s : AppSettings) (hour : Nat) (v : Source) : AppSettings :=
  if isDayTime hour then { s with dayBgUrl := v } else { s with nightBgUrl := v }

/-- Invariant of the transition engine relating the next slot to the
phase: the next layer is populated exactly while the phase is Fading or
Finalizing. -/
def MachineInv (m : Machine) : Prop :=
  m.next.isSome = true ↔ (m.phase = .fading ∨ m.phase = .finalizing)

theorem persistAsset_read_bg (st : AssetStore) (v : StoreVal) (k : Kind) :
    persistAsset st v k KEY_BG = some v := by
  simp [persistAsset, putAsset, KEY_BG, KEY_BG_TYPE]

theorem persistAsset_read_bg_type (st : AssetStore) (v : StoreVal) (k : Kind) :
    persistAsset st v k KEY_BG_TYPE = some (.str (kindStr k)) := by
  simp [persistAsset, putAsset, KEY_BG, KEY_BG_TYPE]

theorem machineInv_step (m : Machine) (e : Ev) (h : MachineInv m) : MachineInv (step m e) := by
  unfold MachineInv at h ⊢
  cases e with
  | request s k =>
      by_cases hs : s = m.bg
      · simpa [step, hs] using h
      · cases hph : m.phase <;> simp_all [step]
  | preloadDone =>
      cases hph : m.phase <;> cases hpd : m.pending <;> simp_all [step]
  | fadeTimer =>
      cases hph : m.phase <;> cases hpd : m.pending <;> simp_all [step]
  | clearTimer =>
      cases hph : m.phase <;> simp_all [step]

theorem machineInv_foldl (evs : List Ev) (m : Machine) (h : MachineInv m) :
    MachineInv (evs.foldl step m) := by
  induction evs generalizing m with
  | nil => exact h
  | cons e rest ih => exact ih (step m e) (machineInv_step m e h)

theorem machineInv_run (evs : List Ev) : MachineInv (runMachine evs) := by
  apply machineInv_foldl
  simp [MachineInv, initMachine]

/-- C1: a transition request for the source already shown is a no-op:
triggerBgTransition returns at its guard leaving the engine state
untouched, and a run of triggerBgTransition performs no write to the
Durable Asset Store or the Preference Store (its write trace is empty);
at the step level, a request for the current source leaves the machine
unchanged. -/
theorem requestTransition_same_source_noop :
    (∀ (st : BgState) (k : Kind) (p : Bool),
        runTransition st st.bgImage k p = ⟨st, [], [], []⟩) ∧
    (∀ (m : Machine) (k : Kind), step m (.request m.bg k) = m) := by
  constructor
  · intro st k p
    simp [runTransition]
  · intro m k
    simp [step]

/-- C5: the day/night selection is a pure function of the hour and the
two configured URLs: hours in [6, 18) select the day source and all
other hours the night source; in particular hours 6 and 17 select day
and hours 18 and 5 select night. -/
theorem daynight_selection_boundaries :
    (∀ (h : Nat) (day night : Source),
        desiredSource h day night = if 6 ≤ h ∧ h < 18 then day else night) ∧
    (∀ (day night : Source),
        desiredSource 6 day night = day ∧ desiredSource 17 day night = day ∧
        desiredSource 18 day night = night ∧ desiredSource 5 day night = night) := by
  constructor
  · intro h day night
    by_cases h1 : 6 ≤ h <;> by_cases h2 : h < 18 <;>
      simp [desiredSource, isDayTime, h1, h2]
  · intro day night
    exact ⟨rfl, rfl, rfl, rfl⟩

/-- C10: loading persisted settings always yields a fully-populated
settings value: an absent or unparseable record yields the complete
default settings; a parsed record has an absent or invalid clockStyle
replaced by IOS_MODERN, each of the five later-introduced fields filled
with its documented default when absent, and the remaining fields taken
from the record. -/
theorem loadSettings_spec :
    loadSettings none = defaultSettings ∧
    (∀ p : StoredSettings,
        (loadSettings (some p)).clockStyle = p.clockStyle.getD .IOS_MODERN ∧
        (loadSettings (some p)).clockScale = p.clockScale.getD 1 ∧
        (loadSettings (some p)).calendarScale = p.calendarScale.getD (1/2) ∧
        (loadSettings (some p)).enableDayNightMode = p.enableDayNightMode.getD false ∧
        (loadSettings (some p)).dayBgUrl = p.dayBgUrl.getD (.url defaultBgUrl) ∧
        (loadSettings (some p)).nightBgUrl = p.nightBgUrl.getD (.url defaultNightBgUrl) ∧
        (loadSettings (some p)).showSeconds = p.showSeconds ∧
        (loadSettings (some p)).is24Hour = p.is24Hour ∧
        (loadSettings (some p)).calendarStyle = p.calendarStyle ∧
        (loadSettings (some p)).showCalendar = p.showCalendar ∧
        (loadSettings (some p)).brightness = p.brightness ∧
        (loadSettings (some p)).bingApiUrl = p.bingApiUrl) ∧
    (∀ p : StoredSettings, p.clockStyle = none →
        (loadSettings (some p)).clockStyle = .IOS_MODERN) := by
  refine ⟨rfl, ?_, ?_⟩
  · intro p
    exact ⟨rfl, rfl, rfl, rfl, rfl, rfl, rfl, rfl, rfl, rfl, rfl, rfl⟩
  · intro p hp
    simp [loadSettings, hp]

/-- C2 (amended): at every state of the transition engine reachable by
any sequence of requests and completions, the next slot is populated if
and only if the phase is Fading or Finalizing; in particular next is
never defined while the engine is Idle.  The original claim also counted
Preloading among the phases with next defined, but the source assigns
nextBgImage only after the preload await completes, so the next slot is
still absent throughout Preloading (see the counterexample). -/
theorem next_defined_iff_fade_or_finalize :
    ∀ evs : List Ev,
      ((runMachine evs).next.isSome = true ↔
        ((runMachine evs).phase = .fading ∨ (runMachine evs).phase = .finalizing)) ∧
      ((runMachine evs).phase = .idle → (runMachine evs).next = none) := by
  intro evs
  have h := machineInv_run evs
  unfold MachineInv at h
  refine ⟨h, fun hidle => ?_⟩
  cases hn : (runMachine evs).next with
  | none => rfl
  | some s =>
      have := h.mp (by simp [hn])
      simp [hidle] at this

/-- C2 (counterexample): after a single accepted transition request the
engine is in the Preloading phase with the next slot still absent, so
the claimed equivalence between a populated next slot and an in-flight
phase (Preloading, Fading or Finalizing) fails at this reachable
state. -/
theorem next_absent_while_preloading_counterexample :
    (runMachine [.request (.url "b") .image]).phase = .preloading ∧
    (runMachine [.request (.url "b") .image]).next = none ∧
    ¬ ((runMachine [.request (.url "b") .image]).next.isSome = true ↔
        ((runMachine [.request (.url "b") .image]).phase = .preloading ∨
         (runMachine [.request (.url "b") .image]).phase = .fading ∨
         (runMachine [.request (.url "b") .image]).phase = .finalizing)) := by
  decide

/-- C3: a background persisted while day/night mode is off (both keys
written by persistAsset) is reproduced by startup restoration on a fresh
instance with day/night mode off: a persisted compressed image string e
yields current = (e, image) and a persisted video blob b yields
current = (object URL of b, video), the same (source, kind) pair the
engine held when the asset was persisted. -/
theorem persisted_background_roundtrip :
    ∀ (store : AssetStore) (e : String) (b : Nat),
      (e ≠ "" →
        (restoreBackground (persistAsset store (.str e) .image) false initialBgState).bgImage
            = .url e ∧
        (restoreBackground (persistAsset store (.str e) .image) false initialBgState).bgType
            = .image) ∧
      ((restoreBackground (persistAsset store (.blob b) .video) false initialBgState).bgImage
          = .objRef b ∧
        (restoreBackground (persistAsset store (.blob b) .video) false initialBgState).bgType
          = .video) := by
  intro store e b
  constructor
  · intro he
    by_cases hdef : e = defaultBgUrl
    · simp [restoreBackground, persistAsset_read_bg, persistAsset_read_bg_type,
        kindOfStored, kindStr, he, runTransition, initialBgState, hdef, defaultBgUrl]
    · simp [restoreBackground, persistAsset_read_bg, persistAsset_read_bg_type,
        kindOfStored, kindStr, he, runTransition, initialBgState, hdef]
  · simp [restoreBackground, persistAsset_read_bg, persistAsset_read_bg_type,
      kindOfStored, kindStr, runTransition, initialBgState]

theorem persisted_background_roundtrip_witness :
    (restoreBackground (persistAsset emptyStore (.str "data:image/jpeg;base64,x") .image)
        false initialBgState).bgImage = .url "data:image/jpeg;base64,x" ∧
    (restoreBackground (persistAsset emptyStore (.blob 0) .video)
        false initialBgState).bgType = .video :=
  ⟨((persisted_background_roundtrip emptyStore "data:image/jpeg;base64,x" 0).1
      (by decide)).1,
   ((persisted_background_roundtrip emptyStore "data:image/jpeg;base64,x" 0).2).2⟩

/-- C9 (amended): a transition whose preload fails is not aborted: the
final engine state is identical to that of a run whose preload succeeds,
the new asset becomes current with the fade completed, and no store
write occurs; a failed image preload is logged with a warning, but a
failed video preload produces no log entry (the video onerror handler
only resolves).  The original claim asserted that every preload failure
is logged. -/
theorem preload_failure_transition_proceeds (st : BgState) (src : Source) (k : Kind)
    (h : src ≠ st.bgImage) :
    (runTransition st src k false).state = (runTransition st src k true).state ∧
    (runTransition st src k false).state.bgImage = src ∧
    (runTransition st src k false).state.nextBgImage = none ∧
    (runTransition st src k false).state.isBgTransitioning = false ∧
    (runTransition st src k false).storeWrites = [] ∧
    (k = .image → (runTransition st src k false).logs = [imgPreloadWarn]) ∧
    (k = .video → (runTransition st src k false).logs = []) := by
  cases k <;> simp [runTransition, h]

theorem preload_failure_transition_proceeds_witness :
    (runTransition initialBgState (.url "x.jpg") .image false).state
        = (runTransition initialBgState (.url "x.jpg") .image true).state ∧
    (runTransition initialBgState (.url "x.jpg") .image false).logs = [imgPreloadWarn] :=
  ⟨(preload_failure_transition_proceeds initialBgState (.url "x.jpg") .image
      (by decide)).1,
   (preload_failure_transition_proceeds initialBgState (.url "x.jpg") .image
      (by decide)).2.2.2.2.2.1 rfl⟩

/-- C9 (counterexample): a genuine transition to a video whose load
fails (preloadOk = false) completes with the video as current but
produces no log entry, contradicting the claim that every preload
failure is logged. -/
theorem video_preload_failure_unlogged_counterexample :
    (runTransition initialBgState (.objRef 7) .video false).state.bgImage = .objRef 7 ∧
    (runTransition initialBgState (.objRef 7) .video false).logs = [] := by
  decide

/-- C4: when day/night mode is enabled no ingestion path (image upload,
video upload, remote fetch) writes the Durable Asset Store (none of them
reads it in any mode: the handlers contain no store read), and any
settings write an ingestion performs targets only the dayBgUrl or
nightBgUrl slot: successful ingestions write the produced source into
the slot selected by the current hour, and the compression-failure
fallback of the image path changes neither store nor settings. -/
theorem daynight_ingestion_store_frame (w : World) (hour : Nat) (p : Bool)
    (hdn : w.settings.enableDayNightMode = true) :
    (∀ (comp : Except Unit String) (raw : String),
        (handleImageFileChange w comp raw hour p).store = w.store ∧
        settingsAgreeOutsideDayNight (handleImageFileChange w comp raw hour p).settings
          w.settings) ∧
    (∀ (e raw : String),
        (handleImageFileChange w (.ok e) raw hour p).settings
          = slotSet w.settings hour (.url e)) ∧
    (∀ b : Nat,
        (handleVideoFileChange w b hour p).store = w.store ∧
        (handleVideoFileChange w b hour p).settings = slotSet w.settings hour (.objRef b)) ∧
    (∀ (entropy : String) (res : Except Unit String),
        (handleFetchBg w entropy res hour p).store = w.store ∧
        settingsAgreeOutsideDayNight (handleFetchBg w entropy res hour p).settings
          w.settings) ∧
    (∀ (entropy e : String),
        w.settings.bingApiUrl ≠ "" →
        (handleFetchBg w entropy (.ok e) hour p).settings = slotSet w.settings hour (.url e)) := by
  refine ⟨?_, ?_, ?_, ?_, ?_⟩
  · intro comp raw
    cases comp with
    | ok e =>
        by_cases hd : isDayTime hour <;>
          simp [handleImageFileChange, hdn, hd, settingsAgreeOutsideDayNight]
    | error u =>
        simp [handleImageFileChange, settingsAgreeOutsideDayNight]
  · intro e raw
    by_cases hd : isDayTime hour <;>
      simp [handleImageFileChange, hdn, hd, slotSet]
  · intro b
    by_cases hd : isDayTime hour <;>
      simp [handleVideoFileChange, hdn, hd, slotSet]
  · intro entropy res
    by_cases hu : w.settings.bingApiUrl = ""
    · simp [handleFetchBg, hu, settingsAgreeOutsideDayNight]
    · cases res with
      | ok e =>
          by_cases hd : isDayTime hour <;>
            simp [handleFetchBg, hu, hdn, hd, settingsAgreeOutsideDayNight]
      | error u2 =>
          by_cases hd : isDayTime hour <;>
            simp [handleFetchBg, hu, hdn, hd, settingsAgreeOutsideDayNight]
  · intro entropy e hu
    by_cases hd : isDayTime hour <;>
      simp [handleFetchBg, hu, hdn, hd, slotSet]

theorem daynight_ingestion_store_frame_witness :
    (handleVideoFileChange
        ⟨{ defaultSettings with enableDayNightMode := true }, emptyStore, initialBgState⟩
        5 12 true).store = emptyStore ∧
    (handleVideoFileChange
        ⟨{ defaultSettings with enableDayNightMode := true }, emptyStore, initialBgState⟩
        5 12 true).settings
      = slotSet { defaultSettings with enableDayNightMode := true } 12 (.objRef 5) :=
  (daynight_ingestion_store_frame
      ⟨{ defaultSettings with enableDayNightMode := true }, emptyStore, initialBgState⟩
      12 true rfl).2.2.1 5

/-- C6: the day/night scheduler issues a transition request only when
the desired source differs from both the current source and the source
in the next slot; whenever the desired source is already current or
in-flight as next, the tick issues no request. -/
theorem daynight_tick_suppression :
    ∀ (s : AppSettings) (h : Nat) (bg : Source) (next : Option Source),
      (∀ (t : Source) (k : Kind),
          dayNightTick s h bg next = some (t, k) →
          t = dayNightDesired s h ∧ t ≠ bg ∧ next ≠ some t) ∧
      ((dayNightDesired s h = bg ∨ next = some (dayNightDesired s h)) →
          dayNightTick s h bg next = none) := by
  intro s h bg next
  constructor
  · intro t k htk
    simp only [dayNightTick] at htk
    split at htk
    · split at htk
      · next hc =>
          simp only [Option.some.injEq, Prod.mk.injEq] at htk
          simp only [Bool.and_eq_true, Bool.not_eq_true', decide_eq_false_iff_not] at hc
          refine ⟨htk.1.symm, ?_, ?_⟩
          · rw [← htk.1.symm] at hc
            exact fun hbg => hc.1.2 hbg.symm
          · rw [← htk.1.symm] at hc
            exact hc.2
      · exact absurd htk (by simp)
    · exact absurd htk (by simp)
  · intro hor
    rcases hor with h1 | h1 <;>
      cases hm : s.enableDayNightMode <;>
        simp [dayNightTick, hm, h1]

theorem daynight_tick_suppression_witness :
    dayNightTick { defaultSettings with enableDayNightMode := true } 12
      (.url defaultBgUrl) none = none :=
  (daynight_tick_suppression { defaultSettings with enableDayNightMode := true } 12
      (.url defaultBgUrl) none).2 (Or.inl rfl)

theorem runTransition_bgImage (x : BgState) (src : Source) (k : Kind) (p : Bool)
    (h : src ≠ x.bgImage) : (runTransition x src k p).state.bgImage = src := by
  simp [runTransition, h]

theorem jsRound_le_1920 (num den : Nat) (h : 2 * num + den < 3842 * den) :
    jsRound num den ≤ 1920 := by
  unfold jsRound
  have hlt : (2 * num + den) / (2 * den) < 1921 := by
    apply Nat.div_lt_of_lt_mul
    omega
  omega

theorem scaleDims_oversize (w h : Nat) (hov : 1920 < w ∨ 1920 < h) :
    max (scaleDims w h).1 (scaleDims w h).2 = 1920 := by
  unfold scaleDims
  have hcond : (decide (w > 1920) || decide (h > 1920)) = true := by
    rcases hov with h1 | h1 <;> simp [h1]
  rw [if_pos hcond]
  by_cases hwh : w > h
  · rw [if_pos hwh]
    have hb : jsRound (h * 1920) w ≤ 1920 := by
      apply jsRound_le_1920
      omega
    simpa using Nat.max_eq_left hb
  · rw [if_neg hwh]
    have hb : jsRound (w * 1920) h ≤ 1920 := by
      apply jsRound_le_1920
      omega
    simpa using Nat.max_eq_right hb

/-- C7 (amended): for a decodable input whose dimensions both fit the
1920 bound the compressor keeps the dimensions; when either dimension
exceeds 1920 it downscales so the longer output dimension is exactly
1920, the other side being the 1920-scaled opposite side rounded (aspect
preserved up to rounding); an input of 4000 by 2000 yields exactly 1920
by 960; every successful output is encoded as image/jpeg at quality
0.7; and the compressor succeeds exactly when the decode succeeds AND a
2d canvas context is available.  The original claim that it fails only
on decode error is refuted by the canvas-context failure path (see the
counterexample). -/
theorem compressImage_spec :
    (∀ w h : Nat, w ≤ 1920 → h ≤ 1920 →
        compressImage (.ok ⟨w, h⟩) true = .ok ⟨w, h, "image/jpeg", 7/10⟩) ∧
    (∀ w h : Nat, 1920 < w ∨ 1920 < h →
        compressImage (.ok ⟨w, h⟩) true
          = .ok ⟨(scaleDims w h).1, (scaleDims w h).2, "image/jpeg", 7/10⟩ ∧
        max (scaleDims w h).1 (scaleDims w h).2 = 1920) ∧
    (compressImage (.ok ⟨4000, 2000⟩) true = .ok ⟨1920, 960, "image/jpeg", 7/10⟩) ∧
    (∀ (dec : Except Unit DecodedImage) (ctx : Bool),
        (∃ c, compressImage dec ctx = .ok c) ↔ ((∃ i, dec = .ok i) ∧ ctx = true)) := by
  refine ⟨?_, ?_, ?_, ?_⟩
  · intro w h hw hh
    have h1 : ¬(1920 < w) := by omega
    have h2 : ¬(1920 < h) := by omega
    simp [compressImage, scaleDims, h1, h2]
  · intro w h hov
    exact ⟨by simp [compressImage], scaleDims_oversize w h hov⟩
  · rfl
  · intro dec ctx
    cases dec <;> cases ctx <;> simp [compressImage]

theorem compressImage_spec_witness :
    compressImage (.ok ⟨100, 100⟩) true = .ok ⟨100, 100, "image/jpeg", 7/10⟩ ∧
    max (scaleDims 4000 1000).1 (scaleDims 4000 1000).2 = 1920 :=
  ⟨compressImage_spec.1 100 100 (by decide) (by decide),
   (compressImage_spec.2.1 4000 1000 (Or.inl (by decide))).2⟩

/-- C7 (counterexample): an input that decodes successfully (a 100 by
100 surface) still fails when the 2d canvas context is unavailable, so
the compressor does not fail only on decode error. -/
theorem compressImage_canvas_failure_counterexample :
    compressImage (.ok ⟨100, 100⟩) false = .error .canvasContextError := rfl

/-- C8 (amended): after three sequential finalized transitions with
assets A, B, C the third asset is current, but no resource reference has
been released at all: the release trace of the three runs is empty, so
the superseded assets A and B have each been released zero times, not
once.  The revocation call in the finalize step is commented out in the
source (line 723), so superseded object URLs are retained. -/
theorem three_transitions_releases_empty (st : BgState) (A B C : Source)
    (kA kB kC : Kind) (p1 p2 p3 : Bool)
    (hA : A ≠ st.bgImage) (hB : B ≠ A) (hC : C ≠ B) :
    (runTransition (runTransition (runTransition st A kA p1).state B kB p2).state
        C kC p3).state.bgImage = C ∧
    ((runTransition st A kA p1).releases ++
      (runTransition (runTransition st A kA p1).state B kB p2).releases ++
      (runTransition (runTransition (runTransition st A kA p1).state B kB p2).state
          C kC p3).releases) = [] ∧
    (∀ s : Source,
      ((runTransition st A kA p1).releases ++
        (runTransition (runTransition st A kA p1).state B kB p2).releases ++
        (runTransition (runTransition (runTransition st A kA p1).state B kB p2).state
            C kC p3).releases).count s = 0) := by
  have s1 : (runTransition st A kA p1).state.bgImage = A :=
    runTransition_bgImage st A kA p1 hA
  have s2 : (runTransition (runTransition st A kA p1).state B kB p2).state.bgImage = B :=
    runTransition_bgImage _ B kB p2 (by rw [s1]; exact hB)
  have s3 : (runTransition (runTransition (runTransition st A kA p1).state B kB p2).state
      C kC p3).state.bgImage = C :=
    runTransition_bgImage _ C kC p3 (by rw [s2]; exact hC)
  have r0 : ∀ (x : BgState) (src : Source) (k : Kind) (p : Bool),
      (runTransition x src k p).releases = [] := by
    intro x src k p
    unfold runTransition
    split <;> rfl
  refine ⟨s3, ?_, ?_⟩
  · simp [r0]
  · intro s
    simp [r0]

theorem three_transitions_releases_empty_witness :
    (runTransition (runTransition (runTransition initialBgState (.objRef 1) .video true).state
        (.objRef 2) .video true).state (.objRef 3) .video true).state.bgImage = .objRef 3 ∧
    ((runTransition initialBgState (.objRef 1) .video true).releases ++
      (runTransition (runTransition initialBgState (.objRef 1) .video true).state
          (.objRef 2) .video true).releases ++
      (runTransition (runTransition (runTransition initialBgState (.objRef 1) .video true).state
          (.objRef 2) .video true).state (.objRef 3) .video true).releases) = [] :=
  ⟨(three_transitions_releases_empty initialBgState (.objRef 1) (.objRef 2) (.objRef 3)
      .video .video .video true true true (by decide) (by decide) (by decide)).1,
   (three_transitions_releases_empty initialBgState (.objRef 1) (.objRef 2) (.objRef 3)
      .video .video .video true true true (by decide) (by decide) (by decide)).2.1⟩

/-- C8 (counterexample): a concrete run of three transitions through
locally-allocated object references 1, 2, 3 ends with reference 3 as
current while the release trace contains reference 1 zero times, not
exactly once as the claim requires (and likewise reference 2). -/
theorem three_transitions_no_release_counterexample :
    (runTransition (runTransition (runTransition initialBgState (.objRef 1) .video true).state
        (.objRef 2) .video true).state (.objRef 3) .video true).state.bgImage = .objRef 3 ∧
    ((runTransition initialBgState (.objRef 1) .video true).releases ++
      (runTransition (runTransition initialBgState (.objRef 1) .video true).state
          (.objRef 2) .video true).releases ++
      (runTransition (runTransition (runTransition initialBgState (.objRef 1) .video true).state
          (.objRef 2) .video true).state (.objRef 3) .video true).releases).count (.objRef 1)
      = 0 ∧
    ¬ (((runTransition initialBgState (.objRef 1) .video true).releases ++
      (runTransition (runTransition initialBgState (.objRef 1) .video true).state
          (.objRef 2) .video true).releases ++
      (runTransition (runTransition (runTransition initialBgState (.objRef 1) .video true).state
          (.objRef 2) .video true).state (.objRef 3) .video true).releases).count (.objRef 1)
      = 1) := by
  decide
